import Mathlib

/-!
Verification of the nanobot provider-resolution and configuration layer.

Shallow embedding of `src/nanobot/config/schema.py` (the Pydantic
configuration model and its accessors) and of the provider factory
described by the specification.  Python strings are Lean `String`s,
Python `int` is `Int`, Python `float` is modelled as `Rat` (no
floating-point arithmetic occurs in any verified property; the values
are only stored, compared and defaulted), `str | None` is
`Option String`, and a Python method reading the process environment
(home directory, environment variables) takes that environment as an
explicit argument.
-/

namespace Nanobot

/-- Characterwise prefix test on the character sequences of two strings;
models Python `str.startswith` (all strings involved are ASCII). -/
def strStartsWith (s p : String) : Bool :=
  p.data.isPrefixOf s.data

/-- Drop the first `n` characters of a string; models Python slicing
`s[n:]` for ASCII strings. -/
def strDrop (s : String) (n : Nat) : String :=
  ⟨s.data.drop n⟩

/-- Lower-case every character; models Python `str.lower` on ASCII. -/
def strLower (s : String) : String :=
  ⟨s.data.map Char.toLower⟩

/-- Upper-case every character; models Python `str.upper` on ASCII. -/
def strUpper (s : String) : String :=
  ⟨s.data.map Char.toUpper⟩

/-- WhatsApp channel configuration (`WhatsAppConfig` in
`src/nanobot/config/schema.py`). -/
structure WhatsAppConfig where
  enabled : Bool := false
  bridge_url : String := "ws://localhost:3001"
  allow_from : List String := []
deriving DecidableEq

/-- Telegram channel configuration (`TelegramConfig` in the source). -/
structure TelegramConfig where
  enabled : Bool := false
  token : String := ""
  allow_from : List String := []
  proxy : Option String := none
deriving DecidableEq

/-- Feishu/Lark channel configuration (`FeishuConfig` in the source). -/
structure FeishuConfig where
  enabled : Bool := false
  app_id : String := ""
  app_secret : String := ""
  encrypt_key : String := ""
  verification_token : String := ""
  allow_from : List String := []
deriving DecidableEq

/-- Configuration for chat channels (`ChannelsConfig` in the source). -/
structure ChannelsConfig where
  whatsapp : WhatsAppConfig := {}
  telegram : TelegramConfig := {}
  feishu : FeishuConfig := {}
deriving DecidableEq

/-- Default agent configuration (`AgentDefaults` in the source). -/
structure AgentDefaults where
  workspace : String := "~/.nanobot/workspace"
  model : String := "gpt-4o"
  max_tokens : Int := 8192
  temperature : Rat := 0.7
  max_tool_iterations : Int := 20
deriving DecidableEq

/-- Agent configuration (`AgentsConfig` in the source). -/
structure AgentsConfig where
  defaults : AgentDefaults := {}
deriving DecidableEq

/-- OpenAI-compatible provider configuration (`OpenAIConfig` in the
source). -/
structure OpenAIConfig where
  api_key : String := ""
  api_base : Option String := none
deriving DecidableEq

/-- Anthropic Claude native SDK configuration (`AnthropicConfig` in the
source). -/
structure AnthropicConfig where
  api_key : String := ""
  api_base : Option String := none
deriving DecidableEq

/-- Google Gemini native SDK configuration (`GeminiConfig` in the
source). -/
structure GeminiConfig where
  api_key : String := ""
  api_base : Option String := none
deriving DecidableEq

/-- Gateway/server configuration (`GatewayConfig` in the source). -/
structure GatewayConfig where
  host : String := "0.0.0.0"
  port : Int := 18790
deriving DecidableEq

/-- Web search tool configuration (`WebSearchConfig` in the source). -/
structure WebSearchConfig where
  api_key : String := ""
  max_results : Int := 5
deriving DecidableEq

/-- Web tools configuration (`WebToolsConfig` in the source). -/
structure WebToolsConfig where
  search : WebSearchConfig := {}
deriving DecidableEq

/-- Shell exec tool configuration (`ExecToolConfig` in the source). -/
structure ExecToolConfig where
  timeout : Int := 60
  restrict_to_workspace : Bool := false
deriving DecidableEq

/-- Tools configuration (`ToolsConfig` in the source). -/
structure ToolsConfig where
  web : WebToolsConfig := {}
  exec : ExecToolConfig := {}
deriving DecidableEq

/-- Root configuration for nanobot (`Config` in the source, a Pydantic
`BaseSettings`). -/
structure Config where
  agents : AgentsConfig := {}
  channels : ChannelsConfig := {}
  openai : OpenAIConfig := {}
  anthropic : AnthropicConfig := {}
  gemini : GeminiConfig := {}
  gateway : GatewayConfig := {}
  tools : ToolsConfig := {}
deriving DecidableEq

/-- Models `pathlib.Path.expanduser` as used by `Config.workspace_path`:
a path equal to `~` or beginning with `~/` has the tilde replaced by the
caller's home directory `home`; any other path is returned unchanged.
Expansion of a named user (`~user/...`), which consults the system user
database, is outside this embedding and no verified property touches it;
`Path`'s separator normalisation is likewise identity on all paths
considered here. -/
def expanduser (home p : String) : String :=
  if p = "~" then home
  else if strStartsWith p "~/" then home ++ strDrop p 1
  else p

/-- The `workspace_path` property of `Config` in the source:
`Path(self.agents.defaults.workspace).expanduser()`.  The caller's home
directory, read from the process environment in Python, is the explicit
argument `home`.  The embedding is a pure function: it reads
`c.agents.defaults.workspace` and mutates nothing. -/
def Config.workspace_path (home : String) (c : Config) : String :=
  expanduser home c.agents.defaults.workspace

/-- The `get_api_key` method of `Config` in the source:
`return self.openai.api_key or None`.  Python `x or None` on a string
yields `None` exactly when `x` is falsy, i.e. the empty string. -/
def Config.get_api_key (c : Config) : Option String :=
  if c.openai.api_key = "" then none else some c.openai.api_key

/-- The `get_api_base` method of `Config` in the source:
`return self.openai.api_base or None`.  `x or None` on an optional
string yields `None` when `x` is `None` or the empty string. -/
def Config.get_api_base (c : Config) : Option String :=
  match c.openai.api_base with
  | none => none
  | some s => if s = "" then none else some s

/-- Pydantic construction of `AgentDefaults` from type-correct field
values.  The source declares the class with plain field defaults and no
validators or field constraints, so construction accepts every
type-correct assignment and performs no range validation; the `Except`
return type records the absence of any rejection branch. -/
def AgentDefaults.model_validate (workspace model : String) (max_tokens : Int)
    (temperature : Rat) (max_tool_iterations : Int) : Except String AgentDefaults :=
  .ok { workspace := workspace, model := model, max_tokens := max_tokens,
        temperature := temperature, max_tool_iterations := max_tool_iterations }

/-- The three backend families recognised by the provider factory. -/
inductive ProviderFamily where
  | anthropic
  | gemini
  | openai_compatible
deriving DecidableEq

/-- Modelled from the spec: the concrete provider classes
(`OpenAIProvider`, `AnthropicProvider`, `GeminiProvider` in
`nanobot/providers/`) are only re-exported by the source files provided;
a constructed provider is represented by its family together with the
constructor arguments the specification says the factory passes: the
vendor-specific model name, the api_key and the api_base of the selected
configuration group. -/
structure LLMProvider where
  family : ProviderFamily
  model : String
  api_key : String
  api_base : Option String
deriving DecidableEq

/-- Modelled from the spec: the factory's error values.
`providerConfigError` names the missing field and the selected family,
as the specification requires of `ProviderConfigError`;
`invalidModelId` is the failure on an empty model identifier, which the
specification says an implementation must treat as invalid input. -/
inductive FactoryError where
  | providerConfigError (missing_field : String) (family : ProviderFamily)
  | invalidModelId
deriving DecidableEq

/-- Modelled from the spec: `create_provider` of
`nanobot/providers/factory.py` is re-exported but not among the provided
source files.  Following the specification's algorithm: an empty
identifier is invalid input; a `@anthropic/` prefix selects the
Anthropic family and a `@gemini/` prefix the Gemini family, each
stripping its prefix (11 and 8 characters) to obtain the vendor model
name; otherwise the OpenAI-compatible family is selected with the whole
identifier as model name.  If the selected family's configured api_key
is empty or absent the factory fails with `ProviderConfigError` naming
the missing field and the family, constructing no provider. -/
def create_provider (model : String) (cfg : Config) : Except FactoryError LLMProvider :=
  if model = "" then .error .invalidModelId
  else if strStartsWith model "@anthropic/" then
    if cfg.anthropic.api_key = "" then
      .error (.providerConfigError "anthropic.api_key" .anthropic)
    else
      .ok { family := .anthropic, model := strDrop model 11,
            api_key := cfg.anthropic.api_key, api_base := cfg.anthropic.api_base }
  else if strStartsWith model "@gemini/" then
    if cfg.gemini.api_key = "" then
      .error (.providerConfigError "gemini.api_key" .gemini)
    else
      .ok { family := .gemini, model := strDrop model 8,
            api_key := cfg.gemini.api_key, api_base := cfg.gemini.api_base }
  else if cfg.openai.api_key = "" then
    .error (.providerConfigError "openai.api_key" .openai_compatible)
  else
    .ok { family := .openai_compatible, model := model,
          api_key := cfg.openai.api_key, api_base := cfg.openai.api_base }

/-- The api_key of the configuration group selected for a model
identifier by the factory's routing convention. -/
def selectedApiKey (model : String) (cfg : Config) : String :=
  if strStartsWith model "@anthropic/" then cfg.anthropic.api_key
  else if strStartsWith model "@gemini/" then cfg.gemini.api_key
  else cfg.openai.api_key

/-- Whether an `Except` value is a success. -/
def isOkE {ε α : Type} : Except ε α → Bool
  | .ok _ => true
  | .error _ => false

/-- Accumulate decimal digits; `none` as soon as a non-digit appears. -/
def parseDigitsAux : List Char → Nat → Option Nat
  | [], acc => some acc
  | c :: cs, acc =>
    if c.isDigit then parseDigitsAux cs (acc * 10 + (c.toNat - 48)) else none

/-- Parse a non-empty run of decimal digits as a natural number. -/
def parseDigits (cs : List Char) : Option Nat :=
  if cs.isEmpty then none else parseDigitsAux cs 0

/-- Coercion of an environment string to a Python `int`: an optional
leading minus sign followed by decimal digits. -/
def parseIntS (s : String) : Option Int :=
  match s.data with
  | [] => none
  | c :: cs =>
    if c = '-' then (parseDigits cs).map (fun n => -(n : Int))
    else (parseDigits (c :: cs)).map (fun n => (n : Int))

/-- Coercion of an environment string to a Python `bool`, following the
truthy/falsy spellings Pydantic accepts. -/
def parseBoolS (s : String) : Option Bool :=
  let l := strLower s
  if l = "true" ∨ l = "1" ∨ l = "yes" ∨ l = "on" ∨ l = "y" ∨ l = "t" then some true
  else if l = "false" ∨ l = "0" ∨ l = "no" ∨ l = "off" ∨ l = "n" ∨ l = "f" then some false
  else none

/-- Coercion of an environment string to a Python `float`, modelled as a
rational: optional sign, decimal digits, optional fractional part. -/
def parseRatS (s : String) : Option Rat :=
  let step : List Char → Int → Option Rat := fun cs sgn =>
    match cs.span (fun c => c != '.') with
    | (intPart, []) => (parseDigits intPart).map (fun n => ((sgn * (n : Int) : Int) : Rat))
    | (intPart, _dot :: fracPart) =>
      match parseDigits intPart, parseDigits fracPart with
      | some ip, some fp =>
        some ((sgn : Rat) * ((ip : Rat) + (fp : Rat) / ((10 : Rat) ^ fracPart.length)))
      | _, _ => none
  match s.data with
  | [] => none
  | c :: cs => if c = '-' then step cs (-1) else step (c :: cs) 1

/-- Parse the body of a JSON string after its opening quote, handling
the escapes needed for string data; returns the string and the rest of
the input after the closing quote. -/
def parseJsonStr : List Char → Option (String × List Char)
  | [] => none
  | c :: cs =>
    if c = '"' then some ("", cs)
    else if c = '\\' then
      match cs with
      | [] => none
      | e :: cs2 =>
        if e = '"' ∨ e = '\\' then
          (parseJsonStr cs2).map (fun r => (⟨e :: r.1.data⟩, r.2))
        else none
    else (parseJsonStr cs).map (fun r => (⟨c :: r.1.data⟩, r.2))

/-- Parse the comma-separated string elements of a JSON array up to the
closing bracket; `fuel` bounds the recursion by the input length. -/
def parseJsonElems : Nat → List Char → Option (List String)
  | 0, _ => none
  | _ + 1, [] => none
  | fuel + 1, c :: cs =>
    if c = '"' then
      match parseJsonStr cs with
      | none => none
      | some (s, rest) =>
        match rest with
        | [] => none
        | r :: rs =>
          if r = ']' ∧ rs = [] then some [s]
          else if r = ',' then (parseJsonElems fuel rs).map (fun l => s :: l)
          else none
    else none

/-- Coercion of an environment string to a `list[str]` field: Pydantic
decodes complex-typed environment values as JSON; this models the JSON
string-array grammar for the values used here. -/
def parseStrListS (s : String) : Option (List String) :=
  match s.data with
  | [] => none
  | c :: cs =>
    if c = '[' then
      if cs = [']'] then some [] else parseJsonElems cs.length cs
    else none

/-- Coercion of an environment string to an optional string field. -/
def parseOptStr (s : String) : Option (Option String) :=
  some (some s)

/-- Look up an environment variable by its canonical (upper-case) name;
Pydantic `BaseSettings` matches environment names case-insensitively. -/
def envLookup (env : List (String × String)) (name : String) : Option String :=
  Option.map Prod.snd (env.find? (fun kv => strUpper kv.1 == name))

/-- One field of the settings layering: the declared default when the
environment does not provide the variable, otherwise the coerced value,
failing fast (with the variable name) when coercion is impossible. -/
def coerceField {α : Type} (env : List (String × String)) (name : String)
    (p : String → Option α) (dflt : α) : Except String α :=
  match envLookup env name with
  | none => .ok dflt
  | some s =>
    match p s with
    | some v => .ok v
    | none => .error name

/-- Modelled behaviour of Pydantic `BaseSettings` for `WhatsAppConfig`
under the `NANOBOT_` prefix and `__` nested-key delimiter declared by
the source's settings class. -/
def WhatsAppConfig.fromEnv (env : List (String × String)) : Except String WhatsAppConfig := do
  let enabled ← coerceField env "NANOBOT_CHANNELS__WHATSAPP__ENABLED" parseBoolS false
  let bridge_url ← coerceField env "NANOBOT_CHANNELS__WHATSAPP__BRIDGE_URL" some "ws://localhost:3001"
  let allow_from ← coerceField env "NANOBOT_CHANNELS__WHATSAPP__ALLOW_FROM" parseStrListS []
  return { enabled := enabled, bridge_url := bridge_url, allow_from := allow_from }

/-- Settings layering for `TelegramConfig`. -/
def TelegramConfig.fromEnv (env : List (String × String)) : Except String TelegramConfig := do
  let enabled ← coerceField env "NANOBOT_CHANNELS__TELEGRAM__ENABLED" parseBoolS false
  let token ← coerceField env "NANOBOT_CHANNELS__TELEGRAM__TOKEN" some ""
  let allow_from ← coerceField env "NANOBOT_CHANNELS__TELEGRAM__ALLOW_FROM" parseStrListS []
  let proxy ← coerceField env "NANOBOT_CHANNELS__TELEGRAM__PROXY" parseOptStr none
  return { enabled := enabled, token := token, allow_from := allow_from, proxy := proxy }

/-- Settings layering for `FeishuConfig`. -/
def FeishuConfig.fromEnv (env : List (String × String)) : Except String FeishuConfig := do
  let enabled ← coerceField env "NANOBOT_CHANNELS__FEISHU__ENABLED" parseBoolS false
  let app_id ← coerceField env "NANOBOT_CHANNELS__FEISHU__APP_ID" some ""
  let app_secret ← coerceField env "NANOBOT_CHANNELS__FEISHU__APP_SECRET" some ""
  let encrypt_key ← coerceField env "NANOBOT_CHANNELS__FEISHU__ENCRYPT_KEY" some ""
  let verification_token ←
    coerceField env "NANOBOT_CHANNELS__FEISHU__VERIFICATION_TOKEN" some ""
  let allow_from ← coerceField env "NANOBOT_CHANNELS__FEISHU__ALLOW_FROM" parseStrListS []
  return { enabled := enabled, app_id := app_id, app_secret := app_secret,
           encrypt_key := encrypt_key, verification_token := verification_token,
           allow_from := allow_from }

/-- Settings layering for `ChannelsConfig`. -/
def ChannelsConfig.fromEnv (env : List (String × String)) : Except String ChannelsConfig := do
  let whatsapp ← WhatsAppConfig.fromEnv env
  let telegram ← TelegramConfig.fromEnv env
  let feishu ← FeishuConfig.fromEnv env
  return { whatsapp := whatsapp, telegram := telegram, feishu := feishu }

/-- Settings layering for `AgentDefaults`. -/
def AgentDefaults.fromEnv (env : List (String × String)) : Except String AgentDefaults := do
  let workspace ← coerceField env "NANOBOT_AGENTS__DEFAULTS__WORKSPACE" some "~/.nanobot/workspace"
  let model ← coerceField env "NANOBOT_AGENTS__DEFAULTS__MODEL" some "gpt-4o"
  let max_tokens ← coerceField env "NANOBOT_AGENTS__DEFAULTS__MAX_TOKENS" parseIntS 8192
  let temperature ← coerceField env "NANOBOT_AGENTS__DEFAULTS__TEMPERATURE" parseRatS 0.7
  let max_tool_iterations ←
    coerceField env "NANOBOT_AGENTS__DEFAULTS__MAX_TOOL_ITERATIONS" parseIntS 20
  return { workspace := workspace, model := model, max_tokens := max_tokens,
           temperature := temperature, max_tool_iterations := max_tool_iterations }

/-- Settings layering for `AgentsConfig`. -/
def AgentsConfig.fromEnv (env : List (String × String)) : Except String AgentsConfig := do
  let defaults ← AgentDefaults.fromEnv env
  return { defaults := defaults }

/-- Settings layering for `OpenAIConfig`. -/
def OpenAIConfig.fromEnv (env : List (String × String)) : Except String OpenAIConfig := do
  let api_key ← coerceField env "NANOBOT_OPENAI__API_KEY" some ""
  let api_base ← coerceField env "NANOBOT_OPENAI__API_BASE" parseOptStr none
  return { api_key := api_key, api_base := api_base }

/-- Settings layering for `AnthropicConfig`. -/
def AnthropicConfig.fromEnv (env : List (String × String)) : Except String AnthropicConfig := do
  let api_key ← coerceField env "NANOBOT_ANTHROPIC__API_KEY" some ""
  let api_base ← coerceField env "NANOBOT_ANTHROPIC__API_BASE" parseOptStr none
  return { api_key := api_key, api_base := api_base }

/-- Settings layering for `GeminiConfig`. -/
def GeminiConfig.fromEnv (env : List (String × String)) : Except String GeminiConfig := do
  let api_key ← coerceField env "NANOBOT_GEMINI__API_KEY" some ""
  let api_base ← coerceField env "NANOBOT_GEMINI__API_BASE" parseOptStr none
  return { api_key := api_key, api_base := api_base }

/-- Settings layering for `GatewayConfig`. -/
def GatewayConfig.fromEnv (env : List (String × String)) : Except String GatewayConfig := do
  let host ← coerceField env "NANOBOT_GATEWAY__HOST" some "0.0.0.0"
  let port ← coerceField env "NANOBOT_GATEWAY__PORT" parseIntS 18790
  return { host := host, port := port }

/-- Settings layering for `WebSearchConfig`. -/
def WebSearchConfig.fromEnv (env : List (String × String)) : Except String WebSearchConfig := do
  let api_key ← coerceField env "NANOBOT_TOOLS__WEB__SEARCH__API_KEY" some ""
  let max_results ← coerceField env "NANOBOT_TOOLS__WEB__SEARCH__MAX_RESULTS" parseIntS 5
  return { api_key := api_key, max_results := max_results }

/-- Settings layering for `WebToolsConfig`. -/
def WebToolsConfig.fromEnv (env : List (String × String)) : Except String WebToolsConfig := do
  let search ← WebSearchConfig.fromEnv env
  return { search := search }

/-- Settings layering for `ExecToolConfig`. -/
def ExecToolConfig.fromEnv (env : List (String × String)) : Except String ExecToolConfig := do
  let timeout ← coerceField env "NANOBOT_TOOLS__EXEC__TIMEOUT" parseIntS 60
  let restrict_to_workspace ←
    coerceField env "NANOBOT_TOOLS__EXEC__RESTRICT_TO_WORKSPACE" parseBoolS false
  return { timeout := timeout, restrict_to_workspace := restrict_to_workspace }

/-- Settings layering for `ToolsConfig`. -/
def ToolsConfig.fromEnv (env : List (String × String)) : Except String ToolsConfig := do
  let web ← WebToolsConfig.fromEnv env
  let exec ← ExecToolConfig.fromEnv env
  return { web := web, exec := exec }

/-- Modelled behaviour of Pydantic `BaseSettings` construction of the
root `Config`: every leaf field is the declared default unless the
environment provides the corresponding `NANOBOT_`-prefixed,
`__`-delimited variable, in which case the value is coerced to the
declared type, failing fast when coercion is impossible. -/
def Config.fromEnv (env : List (String × String)) : Except String Config := do
  let agents ← AgentsConfig.fromEnv env
  let channels ← ChannelsConfig.fromEnv env
  let openai ← OpenAIConfig.fromEnv env
  let anthropic ← AnthropicConfig.fromEnv env
  let gemini ← GeminiConfig.fromEnv env
  let gateway ← GatewayConfig.fromEnv env
  let tools ← ToolsConfig.fromEnv env
  return { agents := agents, channels := channels, openai := openai,
           anthropic := anthropic, gemini := gemini, gateway := gateway,
           tools := tools }

/-- One leaf of the round-trip property: the field value `v` is the
declared default `dflt` when the environment does not set `name`, and is
exactly the coerced override when it does. -/
def FieldFrom {α : Type} (env : List (String × String)) (name : String)
    (p : String → Option α) (dflt : α) (v : α) : Prop :=
  (envLookup env name = none → v = dflt) ∧
  (∀ s, envLookup env name = some s → p s = some v)

/-- The full round-trip property over every leaf field of `Config`:
each overridden field reads back exactly its coerced override and each
field not overridden retains its declared default. -/
def RoundTrip (env : List (String × String)) (cfg : Config) : Prop :=
  FieldFrom env "NANOBOT_AGENTS__DEFAULTS__WORKSPACE" some "~/.nanobot/workspace"
    cfg.agents.defaults.workspace ∧
  FieldFrom env "NANOBOT_AGENTS__DEFAULTS__MODEL" some "gpt-4o" cfg.agents.defaults.model ∧
  FieldFrom env "NANOBOT_AGENTS__DEFAULTS__MAX_TOKENS" parseIntS 8192
    cfg.agents.defaults.max_tokens ∧
  FieldFrom env "NANOBOT_AGENTS__DEFAULTS__TEMPERATURE" parseRatS 0.7
    cfg.agents.defaults.temperature ∧
  FieldFrom env "NANOBOT_AGENTS__DEFAULTS__MAX_TOOL_ITERATIONS" parseIntS 20
    cfg.agents.defaults.max_tool_iterations ∧
  FieldFrom env "NANOBOT_CHANNELS__WHATSAPP__ENABLED" parseBoolS false
    cfg.channels.whatsapp.enabled ∧
  FieldFrom env "NANOBOT_CHANNELS__WHATSAPP__BRIDGE_URL" some "ws://localhost:3001"
    cfg.channels.whatsapp.bridge_url ∧
  FieldFrom env "NANOBOT_CHANNELS__WHATSAPP__ALLOW_FROM" parseStrListS []
    cfg.channels.whatsapp.allow_from ∧
  FieldFrom env "NANOBOT_CHANNELS__TELEGRAM__ENABLED" parseBoolS false
    cfg.channels.telegram.enabled ∧
  FieldFrom env "NANOBOT_CHANNELS__TELEGRAM__TOKEN" some "" cfg.channels.telegram.token ∧
  FieldFrom env "NANOBOT_CHANNELS__TELEGRAM__ALLOW_FROM" parseStrListS []
    cfg.channels.telegram.allow_from ∧
  FieldFrom env "NANOBOT_CHANNELS__TELEGRAM__PROXY" parseOptStr none
    cfg.channels.telegram.proxy ∧
  FieldFrom env "NANOBOT_CHANNELS__FEISHU__ENABLED" parseBoolS false
    cfg.channels.feishu.enabled ∧
  FieldFrom env "NANOBOT_CHANNELS__FEISHU__APP_ID" some "" cfg.channels.feishu.app_id ∧
  FieldFrom env "NANOBOT_CHANNELS__FEISHU__APP_SECRET" some ""
    cfg.channels.feishu.app_secret ∧
  FieldFrom env "NANOBOT_CHANNELS__FEISHU__ENCRYPT_KEY" some ""
    cfg.channels.feishu.encrypt_key ∧
  FieldFrom env "NANOBOT_CHANNELS__FEISHU__VERIFICATION_TOKEN" some ""
    cfg.channels.feishu.verification_token ∧
  FieldFrom env "NANOBOT_CHANNELS__FEISHU__ALLOW_FROM" parseStrListS []
    cfg.channels.feishu.allow_from ∧
  FieldFrom env "NANOBOT_OPENAI__API_KEY" some "" cfg.openai.api_key ∧
  FieldFrom env "NANOBOT_OPENAI__API_BASE" parseOptStr none cfg.openai.api_base ∧
  FieldFrom env "NANOBOT_ANTHROPIC__API_KEY" some "" cfg.anthropic.api_key ∧
  FieldFrom env "NANOBOT_ANTHROPIC__API_BASE" parseOptStr none cfg.anthropic.api_base ∧
  FieldFrom env "NANOBOT_GEMINI__API_KEY" some "" cfg.gemini.api_key ∧
  FieldFrom env "NANOBOT_GEMINI__API_BASE" parseOptStr none cfg.gemini.api_base ∧
  FieldFrom env "NANOBOT_GATEWAY__HOST" some "0.0.0.0" cfg.gateway.host ∧
  FieldFrom env "NANOBOT_GATEWAY__PORT" parseIntS 18790 cfg.gateway.port ∧
  FieldFrom env "NANOBOT_TOOLS__WEB__SEARCH__API_KEY" some ""
    cfg.tools.web.search.api_key ∧
  FieldFrom env "NANOBOT_TOOLS__WEB__SEARCH__MAX_RESULTS" parseIntS 5
    cfg.tools.web.search.max_results ∧
  FieldFrom env "NANOBOT_TOOLS__EXEC__TIMEOUT" parseIntS 60 cfg.tools.exec.timeout ∧
  FieldFrom env "NANOBOT_TOOLS__EXEC__RESTRICT_TO_WORKSPACE" parseBoolS false
    cfg.tools.exec.restrict_to_workspace

/-- All-defaults configuration: no key is configured. -/
def cfgDefault : Config := {}

/-- Configuration agreeing with `cfgDefault` on the openai group but
differing in the anthropic, channels and gateway sections. -/
def cfgOther : Config :=
  { anthropic := { api_key := "ak-1" },
    channels := { telegram := { enabled := true } },
    gateway := { port := 1 } }

/-- Configuration with an API key in every backend-family group. -/
def cfgKeys : Config :=
  { openai := { api_key := "sk-openai", api_base := some "https://api.example.com/v1" },
    anthropic := { api_key := "sk-ant" },
    gemini := { api_key := "sk-gem" } }

/-- Configuration whose openai group has an explicitly empty api_key and
an explicitly empty api_base string. -/
def cfgEmptyBase : Config :=
  { openai := { api_key := "", api_base := some "" } }

/-- Configuration whose workspace is an absolute path with no tilde. -/
def cfgAbsWorkspace : Config :=
  { agents := { defaults := { workspace := "/srv/nanobot/ws" } } }

/-- Sample environment-override set for the round-trip witness. -/
def sampleEnv : List (String × String) :=
  [("NANOBOT_OPENAI__API_KEY", "sk-test"),
   ("NANOBOT_GATEWAY__PORT", "8080"),
   ("NANOBOT_CHANNELS__TELEGRAM__ENABLED", "true"),
   ("NANOBOT_CHANNELS__TELEGRAM__ALLOW_FROM", "[\"123\",\"456\"]"),
   ("NANOBOT_AGENTS__DEFAULTS__MAX_TOKENS", "4096")]

/-- The configuration the sample environment-override set produces. -/
def sampleCfg : Config :=
  { agents := { defaults := { max_tokens := 4096 } },
    channels := { telegram := { enabled := true, allow_from := ["123", "456"] } },
    openai := { api_key := "sk-test" },
    gateway := { port := 8080 } }

/-! Helper lemmas. -/

/-- Inversion of an `Except` bind that succeeded. -/
theorem exceptBindOk {ε α β : Type} {x : Except ε α} {f : α → Except ε β} {b : β}
    (h : x >>= f = .ok b) : ∃ a, x = .ok a ∧ f a = .ok b := by
  have h2 : Except.bind x f = .ok b := h
  cases x with
  | error e => simp [Except.bind] at h2
  | ok a => exact ⟨a, rfl, h2⟩

/-- A string with a non-empty prefix is non-empty. -/
theorem strStartsWith_ne_empty (m p : String) (h : strStartsWith m p = true)
    (hp : p.data ≠ []) : m ≠ "" := by
  intro he
  subst he
  rw [strStartsWith] at h
  cases hd : p.data with
  | nil => exact hp hd
  | cons c cs => rw [hd] at h; simp at h

/-- Two incomparable prefixes cannot both begin the same string. -/
theorem strStartsWith_disjoint (m p q : String)
    (hpq : ¬ (p.data <+: q.data)) (hqp : ¬ (q.data <+: p.data))
    (h : strStartsWith m p = true) : strStartsWith m q = false := by
  by_contra hg
  rw [Bool.not_eq_false] at hg
  rw [strStartsWith, List.isPrefixOf_iff_prefix] at h hg
  rcases List.prefix_or_prefix_of_prefix h hg with h1 | h1
  · exact hpq h1
  · exact hqp h1

/-- Stripping a verified prefix and re-attaching it restores the string. -/
theorem strStartsWith_append (m p : String) (h : strStartsWith m p = true) :
    p ++ strDrop m p.data.length = m := by
  rw [strStartsWith, List.isPrefixOf_iff_prefix] at h
  obtain ⟨t, ht⟩ := h
  show String.mk (p.data ++ List.drop p.data.length m.data) = m
  conv_lhs => rw [← ht]
  rw [List.drop_left, ht]

/-! Claim theorems. -/

/-- C3: for every Config, get_api_key() returns None (not the empty
string) when the underlying api_key field is unset (the field's declared
default is the empty string), and get_api_base() returns None when the
underlying api_base field is unset (its declared default is None); when
the fields carry a value, the accessors return that value. -/
theorem get_accessors_unset_none (cfg : Config) :
    (cfg.openai.api_key = "" → cfg.get_api_key = none) ∧
    (cfg.openai.api_key ≠ "" → cfg.get_api_key = some cfg.openai.api_key) ∧
    (cfg.openai.api_base = none → cfg.get_api_base = none) ∧
    (∀ s, cfg.openai.api_base = some s → s ≠ "" → cfg.get_api_base = some s) := by
  refine ⟨fun h => ?_, fun h => ?_, fun h => ?_, fun s hs hne => ?_⟩
  · simp [Config.get_api_key, h]
  · simp [Config.get_api_key, h]
  · simp [Config.get_api_base, h]
  · simp [Config.get_api_base, hs, hne]

/-- Witness for C3 at concrete configurations: the all-defaults config
has an unset key and base and both accessors return none; a config with
values set gets them back. -/
theorem get_accessors_unset_none_witness :
    (cfgDefault.openai.api_key = "" ∧ cfgDefault.get_api_key = none) ∧
    (cfgDefault.openai.api_base = none ∧ cfgDefault.get_api_base = none) ∧
    (cfgKeys.openai.api_key ≠ "" ∧ cfgKeys.get_api_key = some cfgKeys.openai.api_key) ∧
    (cfgKeys.openai.api_base = some "https://api.example.com/v1" ∧
      ("https://api.example.com/v1" : String) ≠ "" ∧
      cfgKeys.get_api_base = some "https://api.example.com/v1") :=
  ⟨⟨rfl, (get_accessors_unset_none cfgDefault).1 rfl⟩,
   ⟨rfl, (get_accessors_unset_none cfgDefault).2.2.1 rfl⟩,
   ⟨by decide, (get_accessors_unset_none cfgKeys).2.1 (by decide)⟩,
   ⟨rfl, by decide,
    (get_accessors_unset_none cfgKeys).2.2.2 "https://api.example.com/v1" rfl (by decide)⟩⟩

/-- C4 counterexample: the claim says construction validates
max_tokens > 0 and 0 ≤ temperature and rejects out-of-range inputs, but
the source declares AgentDefaults with plain defaults and no validators,
so constructing it with max_tokens = -1 succeeds and produces a value
violating the claimed invariant. -/
theorem agentDefaults_bounds_cex :
    AgentDefaults.model_validate "~/.nanobot/workspace" "gpt-4o" (-1) 0 20 =
      .ok { workspace := "~/.nanobot/workspace", model := "gpt-4o", max_tokens := -1,
            temperature := 0, max_tool_iterations := 20 } ∧
    ¬ ((-1 : Int) > 0) :=
  ⟨rfl, by decide⟩

/-- C4 amended: construction of AgentDefaults performs no bounds
validation — every type-correct field assignment is accepted, including
max_tokens ≤ 0 or temperature < 0 — while the declared default values do
satisfy max_tokens > 0 and 0 ≤ temperature. -/
theorem agentDefaults_construction_unvalidated :
    (∀ (w m : String) (mt : Int) (t : Rat) (mti : Int),
      AgentDefaults.model_validate w m mt t mti =
        .ok { workspace := w, model := m, max_tokens := mt, temperature := t,
              max_tool_iterations := mti }) ∧
    ({} : AgentDefaults).max_tokens > 0 ∧ 0 ≤ ({} : AgentDefaults).temperature :=
  ⟨fun _ _ _ _ _ => rfl, by decide, by show (0 : Rat) ≤ 0.7; norm_num⟩

/-- C5: for every Config whose agents.defaults.workspace is the default
string beginning with a user-home tilde, workspace_path returns the home
directory joined with the remainder; the embedding is a pure function of
the fields, so the computation has no side effect on them. -/
theorem workspace_path_expands_home (home : String) (cfg : Config)
    (h : cfg.agents.defaults.workspace = "~/.nanobot/workspace") :
    Config.workspace_path home cfg = home ++ "/.nanobot/workspace" := by
  unfold Config.workspace_path expanduser
  rw [h]
  rw [if_neg (by decide : ¬ (("~/.nanobot/workspace" : String) = "~"))]
  rw [if_pos (by rfl : strStartsWith "~/.nanobot/workspace" "~/" = true)]
  rfl

/-- Witness for C5: the all-defaults configuration with home directory
/home/user expands to /home/user/.nanobot/workspace. -/
theorem workspace_path_expands_home_witness :
    cfgDefault.agents.defaults.workspace = "~/.nanobot/workspace" ∧
    Config.workspace_path "/home/user" cfgDefault = "/home/user/.nanobot/workspace" :=
  ⟨rfl, workspace_path_expands_home "/home/user" cfgDefault rfl⟩

/-- C8: an explicitly configured empty string is indistinguishable from
an unset value at the accessor boundary — get_api_key() is none when
openai.api_key is the empty string, and get_api_base() is none both when
openai.api_base is none and when it is the empty string. -/
theorem accessors_empty_equals_unset (cfg : Config) :
    (cfg.openai.api_key = "" → cfg.get_api_key = none) ∧
    (cfg.openai.api_base = none ∨ cfg.openai.api_base = some "" →
      cfg.get_api_base = none) := by
  refine ⟨fun h => ?_, fun h => ?_⟩
  · simp [Config.get_api_key, h]
  · rcases h with h | h <;> simp [Config.get_api_base, h]

/-- Witness for C8: a config with api_base explicitly the empty string
and the all-defaults config (api_base unset) give the same none results
as an unset key. -/
theorem accessors_empty_equals_unset_witness :
    (cfgEmptyBase.openai.api_key = "" ∧ cfgEmptyBase.get_api_key = none) ∧
    (cfgEmptyBase.openai.api_base = some "" ∧ cfgEmptyBase.get_api_base = none) ∧
    (cfgDefault.openai.api_base = none ∧ cfgDefault.get_api_base = none) :=
  ⟨⟨rfl, (accessors_empty_equals_unset cfgEmptyBase).1 rfl⟩,
   ⟨rfl, (accessors_empty_equals_unset cfgEmptyBase).2 (Or.inr rfl)⟩,
   ⟨rfl, (accessors_empty_equals_unset cfgDefault).2 (Or.inl rfl)⟩⟩

/-- C9: noninterference of the accessors — two Configs agreeing on the
openai group, however much they differ in the anthropic, gemini, agents,
channels, gateway or tools sections, get equal results from
get_api_key() and get_api_base(). -/
theorem accessors_depend_only_on_openai (c1 c2 : Config) (h : c1.openai = c2.openai) :
    c1.get_api_key = c2.get_api_key ∧ c1.get_api_base = c2.get_api_base := by
  constructor
  · simp [Config.get_api_key, h]
  · simp [Config.get_api_base, h]

/-- Witness for C9: the all-defaults config and a config differing in
the anthropic, channels and gateway sections agree on the openai group
and on both accessor results. -/
theorem accessors_depend_only_on_openai_witness :
    cfgDefault.openai = cfgOther.openai ∧
    cfgDefault.get_api_key = cfgOther.get_api_key ∧
    cfgDefault.get_api_base = cfgOther.get_api_base :=
  ⟨rfl, (accessors_depend_only_on_openai cfgDefault cfgOther rfl).1,
   (accessors_depend_only_on_openai cfgDefault cfgOther rfl).2⟩

/-- C10: for every Config whose workspace does not begin with a tilde,
workspace_path returns the workspace string unchanged — only a leading
user-home tilde is expanded. -/
theorem workspace_path_no_tilde_unchanged (home : String) (cfg : Config)
    (h : strStartsWith cfg.agents.defaults.workspace "~" = false) :
    Config.workspace_path home cfg = cfg.agents.defaults.workspace := by
  unfold Config.workspace_path expanduser
  have h1 : ¬ (cfg.agents.defaults.workspace = "~") := by
    intro he
    rw [he] at h
    exact absurd h (by decide)
  have h2 : strStartsWith cfg.agents.defaults.workspace "~/" = false := by
    by_contra hg
    rw [Bool.not_eq_false] at hg
    rw [strStartsWith, List.isPrefixOf_iff_prefix] at hg
    have h3 : ("~" : String).data <+: cfg.agents.defaults.workspace.data :=
      List.IsPrefix.trans (by decide) hg
    rw [strStartsWith] at h
    rw [← List.isPrefixOf_iff_prefix] at h3
    rw [h] at h3
    exact Bool.false_ne_true h3
  rw [if_neg h1, if_neg (by simp [h2])]

/-- Witness for C10: an absolute workspace path is returned unchanged. -/
theorem workspace_path_no_tilde_unchanged_witness :
    strStartsWith cfgAbsWorkspace.agents.defaults.workspace "~" = false ∧
    Config.workspace_path "/home/user" cfgAbsWorkspace = "/srv/nanobot/ws" :=
  ⟨rfl, workspace_path_no_tilde_unchanged "/home/user" cfgAbsWorkspace rfl⟩

/-- C1 counterexample: the claim quantifies over every configuration,
but with the all-defaults configuration (anthropic.api_key empty) the
anthropic-prefixed identifier yields a ProviderConfigError, not an
Anthropic-family provider. -/
theorem create_provider_routing_cex :
    create_provider "@anthropic/claude-3" cfgDefault =
      .error (.providerConfigError "anthropic.api_key" .anthropic) :=
  rfl

/-- C1 amended: create_provider routes by prefix provided the selected
family's api_key is configured (non-empty) and the identifier is
non-empty, the preconditions the spec's own error branches (C2, C7)
impose.  An identifier beginning with
the anthropic prefix yields an Anthropic-family provider and one
beginning with the gemini prefix a Gemini-family provider, each
configured with the vendor model name obtained by stripping that prefix
(re-attaching the prefix to the configured model name restores the
identifier); an identifier with no recognized prefix yields an
OpenAI-compatible provider whose vendor model name is the whole
identifier unchanged. -/
theorem create_provider_routing (m : String) (cfg : Config) :
    (strStartsWith m "@anthropic/" = true → cfg.anthropic.api_key ≠ "" →
      create_provider m cfg =
        .ok { family := .anthropic, model := strDrop m 11,
              api_key := cfg.anthropic.api_key, api_base := cfg.anthropic.api_base } ∧
      "@anthropic/" ++ strDrop m 11 = m) ∧
    (strStartsWith m "@gemini/" = true → cfg.gemini.api_key ≠ "" →
      create_provider m cfg =
        .ok { family := .gemini, model := strDrop m 8,
              api_key := cfg.gemini.api_key, api_base := cfg.gemini.api_base } ∧
      "@gemini/" ++ strDrop m 8 = m) ∧
    (m ≠ "" → strStartsWith m "@anthropic/" = false → strStartsWith m "@gemini/" = false →
      cfg.openai.api_key ≠ "" →
      create_provider m cfg =
        .ok { family := .openai_compatible, model := m,
              api_key := cfg.openai.api_key, api_base := cfg.openai.api_base }) := by
  refine ⟨fun h hk => ?_, fun h hk => ?_, fun hne h1 h2 hk => ?_⟩
  · have hne : m ≠ "" := strStartsWith_ne_empty m "@anthropic/" h (by decide)
    refine ⟨?_, ?_⟩
    · unfold create_provider
      rw [if_neg hne, if_pos h, if_neg hk]
    · have h11 : ("@anthropic/" : String).data.length = 11 := rfl
      have h12 := strStartsWith_append m "@anthropic/" h
      rwa [h11] at h12
  · have hne : m ≠ "" := strStartsWith_ne_empty m "@gemini/" h (by decide)
    have ha : strStartsWith m "@anthropic/" = false :=
      strStartsWith_disjoint m "@gemini/" "@anthropic/" (by decide) (by decide) h
    refine ⟨?_, ?_⟩
    · unfold create_provider
      rw [if_neg hne, if_neg (by simp [ha]), if_pos h, if_neg hk]
    · have h8 : ("@gemini/" : String).data.length = 8 := rfl
      have h9 := strStartsWith_append m "@gemini/" h
      rwa [h8] at h9
  · unfold create_provider
    rw [if_neg hne, if_neg (by simp [h1]), if_neg (by simp [h2]), if_neg hk]

/-- Witness for C1 at the spec's two examples, with every family key
configured: the anthropic-prefixed identifier yields the Anthropic
family with the prefix stripped, and the bare identifier yields the
OpenAI-compatible family with the identifier unchanged. -/
theorem create_provider_routing_witness :
    (strStartsWith "@anthropic/claude-3" "@anthropic/" = true ∧
     cfgKeys.anthropic.api_key ≠ "" ∧
     create_provider "@anthropic/claude-3" cfgKeys =
       .ok { family := .anthropic, model := strDrop "@anthropic/claude-3" 11,
             api_key := cfgKeys.anthropic.api_key,
             api_base := cfgKeys.anthropic.api_base } ∧
     "@anthropic/" ++ strDrop "@anthropic/claude-3" 11 = "@anthropic/claude-3") ∧
    (("gpt-4o" : String) ≠ "" ∧ strStartsWith "gpt-4o" "@anthropic/" = false ∧
     strStartsWith "gpt-4o" "@gemini/" = false ∧ cfgKeys.openai.api_key ≠ "" ∧
     create_provider "gpt-4o" cfgKeys =
       .ok { family := .openai_compatible, model := "gpt-4o",
             api_key := cfgKeys.openai.api_key, api_base := cfgKeys.openai.api_base }) :=
  ⟨⟨rfl, by decide,
    ((create_provider_routing "@anthropic/claude-3" cfgKeys).1 rfl (by decide)).1,
    ((create_provider_routing "@anthropic/claude-3" cfgKeys).1 rfl (by decide)).2⟩,
   ⟨by decide, rfl, rfl, by decide,
    (create_provider_routing "gpt-4o" cfgKeys).2.2 (by decide) rfl rfl (by decide)⟩⟩

/-- C2: when the api_key configured for the family selected by the
identifier's routing prefix is empty or absent (the declared default is
the empty string), create_provider fails with ProviderConfigError
identifying the missing field and the selected family, and constructs no
provider instance. -/
theorem create_provider_missing_key_error (m : String) (cfg : Config) :
    (strStartsWith m "@anthropic/" = true → cfg.anthropic.api_key = "" →
      create_provider m cfg =
        .error (.providerConfigError "anthropic.api_key" .anthropic)) ∧
    (strStartsWith m "@gemini/" = true → cfg.gemini.api_key = "" →
      create_provider m cfg = .error (.providerConfigError "gemini.api_key" .gemini)) ∧
    (m ≠ "" → strStartsWith m "@anthropic/" = false → strStartsWith m "@gemini/" = false →
      cfg.openai.api_key = "" →
      create_provider m cfg =
        .error (.providerConfigError "openai.api_key" .openai_compatible)) := by
  refine ⟨fun h hk => ?_, fun h hk => ?_, fun hne h1 h2 hk => ?_⟩
  · have hne : m ≠ "" := strStartsWith_ne_empty m "@anthropic/" h (by decide)
    unfold create_provider
    rw [if_neg hne, if_pos h, if_pos hk]
  · have hne : m ≠ "" := strStartsWith_ne_empty m "@gemini/" h (by decide)
    have ha : strStartsWith m "@anthropic/" = false :=
      strStartsWith_disjoint m "@gemini/" "@anthropic/" (by decide) (by decide) h
    unfold create_provider
    rw [if_neg hne, if_neg (by simp [ha]), if_pos h, if_pos hk]
  · unfold create_provider
    rw [if_neg hne, if_neg (by simp [h1]), if_neg (by simp [h2]), if_pos hk]

/-- Witness for C2 at the spec's example: with the all-defaults config,
whose anthropic.api_key is the empty string, the anthropic-prefixed
identifier raises ProviderConfigError identifying the anthropic
family. -/
theorem create_provider_missing_key_error_witness :
    strStartsWith "@anthropic/claude-3" "@anthropic/" = true ∧
    cfgDefault.anthropic.api_key = "" ∧
    create_provider "@anthropic/claude-3" cfgDefault =
      .error (.providerConfigError "anthropic.api_key" .anthropic) :=
  ⟨rfl, rfl,
   (create_provider_missing_key_error "@anthropic/claude-3" cfgDefault).1 rfl rfl⟩

/-- C7: the empty model identifier is invalid input — create_provider
fails on it, returning no provider — and for every non-empty identifier
the factory is a pure selection with exactly one failure branch per
unmet precondition: it fails exactly when the api_key of the family
selected by the routing convention is empty. -/
theorem create_provider_empty_invalid_total (m : String) (cfg : Config) :
    create_provider "" cfg = .error .invalidModelId ∧
    (m ≠ "" → (isOkE (create_provider m cfg) = false ↔ selectedApiKey m cfg = "")) := by
  refine ⟨rfl, fun hne => ?_⟩
  by_cases ha : strStartsWith m "@anthropic/" = true
  · by_cases hk : cfg.anthropic.api_key = "" <;>
      simp [create_provider, selectedApiKey, hne, ha, hk, isOkE]
  · rw [Bool.not_eq_true] at ha
    by_cases hg : strStartsWith m "@gemini/" = true
    · by_cases hk : cfg.gemini.api_key = "" <;>
        simp [create_provider, selectedApiKey, hne, ha, hg, hk, isOkE]
    · rw [Bool.not_eq_true] at hg
      by_cases hk : cfg.openai.api_key = "" <;>
        simp [create_provider, selectedApiKey, hne, ha, hg, hk, isOkE]

/-- Witness for C7: the empty identifier fails on the all-defaults
config, and for the non-empty identifier gpt-4o success is equivalent to
a configured openai key (here absent, so the factory fails). -/
theorem create_provider_empty_invalid_total_witness :
    ("gpt-4o" : String) ≠ "" ∧
    create_provider "" cfgDefault = .error .invalidModelId ∧
    (isOkE (create_provider "gpt-4o" cfgDefault) = false ↔
      selectedApiKey "gpt-4o" cfgDefault = "") :=
  ⟨by decide, (create_provider_empty_invalid_total "gpt-4o" cfgDefault).1,
   (create_provider_empty_invalid_total "gpt-4o" cfgDefault).2 (by decide)⟩

/-- A successful field coercion satisfies its round-trip leaf. -/
theorem coerceField_ok {α : Type} {env : List (String × String)} {name : String}
    {p : String → Option α} {dflt v : α} (h : coerceField env name p dflt = .ok v) :
    FieldFrom env name p dflt v := by
  unfold coerceField at h
  unfold FieldFrom
  cases he : envLookup env name with
  | none =>
    rw [he] at h
    have h4 : (Except.ok dflt : Except String α) = .ok v := h
    injection h4 with h5
    exact ⟨fun _ => h5.symm, fun s hs => absurd hs (by simp)⟩
  | some s0 =>
    rw [he] at h
    dsimp only at h
    cases hp : p s0 with
    | none =>
      rw [hp] at h
      exact absurd h (by simp)
    | some v0 =>
      rw [hp] at h
      have h4 : (Except.ok v0 : Except String α) = .ok v := h
      injection h4 with h5
      refine ⟨fun hn => absurd hn (by simp), fun s hs => ?_⟩
      injection hs with hss
      rw [← hss, hp, h5]

/-- Round-trip leaves of the WhatsApp group. -/
theorem whatsAppConfig_fromEnv_fields {env : List (String × String)} {w : WhatsAppConfig}
    (h : WhatsAppConfig.fromEnv env = .ok w) :
    FieldFrom env "NANOBOT_CHANNELS__WHATSAPP__ENABLED" parseBoolS false w.enabled ∧
    FieldFrom env "NANOBOT_CHANNELS__WHATSAPP__BRIDGE_URL" some "ws://localhost:3001"
      w.bridge_url ∧
    FieldFrom env "NANOBOT_CHANNELS__WHATSAPP__ALLOW_FROM" parseStrListS []
      w.allow_from := by
  unfold WhatsAppConfig.fromEnv at h
  obtain ⟨e, he, h⟩ := exceptBindOk h
  obtain ⟨b, hb, h⟩ := exceptBindOk h
  obtain ⟨a, ha, h⟩ := exceptBindOk h
  have h2 : (Except.ok { enabled := e, bridge_url := b, allow_from := a } :
      Except String WhatsAppConfig) = .ok w := h
  injection h2 with h3
  rw [← h3]
  exact ⟨coerceField_ok he, coerceField_ok hb, coerceField_ok ha⟩

/-- Round-trip leaves of the Telegram group. -/
theorem telegramConfig_fromEnv_fields {env : List (String × String)} {t : TelegramConfig}
    (h : TelegramConfig.fromEnv env = .ok t) :
    FieldFrom env "NANOBOT_CHANNELS__TELEGRAM__ENABLED" parseBoolS false t.enabled ∧
    FieldFrom env "NANOBOT_CHANNELS__TELEGRAM__TOKEN" some "" t.token ∧
    FieldFrom env "NANOBOT_CHANNELS__TELEGRAM__ALLOW_FROM" parseStrListS []
      t.allow_from ∧
    FieldFrom env "NANOBOT_CHANNELS__TELEGRAM__PROXY" parseOptStr none t.proxy := by
  unfold TelegramConfig.fromEnv at h
  obtain ⟨e, he, h⟩ := exceptBindOk h
  obtain ⟨tk, htk, h⟩ := exceptBindOk h
  obtain ⟨a, ha, h⟩ := exceptBindOk h
  obtain ⟨px, hpx, h⟩ := exceptBindOk h
  have h2 : (Except.ok { enabled := e, token := tk, allow_from := a, proxy := px } :
      Except String TelegramConfig) = .ok t := h
  injection h2 with h3
  rw [← h3]
  exact ⟨coerceField_ok he, coerceField_ok htk, coerceField_ok ha, coerceField_ok hpx⟩

/-- Round-trip leaves of the Feishu group. -/
theorem feishuConfig_fromEnv_fields {env : List (String × String)} {f : FeishuConfig}
    (h : FeishuConfig.fromEnv env = .ok f) :
    FieldFrom env "NANOBOT_CHANNELS__FEISHU__ENABLED" parseBoolS false f.enabled ∧
    FieldFrom env "NANOBOT_CHANNELS__FEISHU__APP_ID" some "" f.app_id ∧
    FieldFrom env "NANOBOT_CHANNELS__FEISHU__APP_SECRET" some "" f.app_secret ∧
    FieldFrom env "NANOBOT_CHANNELS__FEISHU__ENCRYPT_KEY" some "" f.encrypt_key ∧
    FieldFrom env "NANOBOT_CHANNELS__FEISHU__VERIFICATION_TOKEN" some ""
      f.verification_token ∧
    FieldFrom env "NANOBOT_CHANNELS__FEISHU__ALLOW_FROM" parseStrListS []
      f.allow_from := by
  unfold FeishuConfig.fromEnv at h
  obtain ⟨e, he, h⟩ := exceptBindOk h
  obtain ⟨ai, hai, h⟩ := exceptBindOk h
  obtain ⟨asec, hasec, h⟩ := exceptBindOk h
  obtain ⟨ek, hek, h⟩ := exceptBindOk h
  obtain ⟨vt, hvt, h⟩ := exceptBindOk h
  obtain ⟨a, ha, h⟩ := exceptBindOk h
  have h2 : (Except.ok { enabled := e, app_id := ai, app_secret := asec,
                         encrypt_key := ek, verification_token := vt,
                         allow_from := a } :
      Except String FeishuConfig) = .ok f := h
  injection h2 with h3
  rw [← h3]
  exact ⟨coerceField_ok he, coerceField_ok hai, coerceField_ok hasec,
         coerceField_ok hek, coerceField_ok hvt, coerceField_ok ha⟩

/-- Round-trip leaves of the channels section. -/
theorem channelsConfig_fromEnv_fields {env : List (String × String)} {c : ChannelsConfig}
    (h : ChannelsConfig.fromEnv env = .ok c) :
    FieldFrom env "NANOBOT_CHANNELS__WHATSAPP__ENABLED" parseBoolS false
      c.whatsapp.enabled ∧
    FieldFrom env "NANOBOT_CHANNELS__WHATSAPP__BRIDGE_URL" some "ws://localhost:3001"
      c.whatsapp.bridge_url ∧
    FieldFrom env "NANOBOT_CHANNELS__WHATSAPP__ALLOW_FROM" parseStrListS []
      c.whatsapp.allow_from ∧
    FieldFrom env "NANOBOT_CHANNELS__TELEGRAM__ENABLED" parseBoolS false
      c.telegram.enabled ∧
    FieldFrom env "NANOBOT_CHANNELS__TELEGRAM__TOKEN" some "" c.telegram.token ∧
    FieldFrom env "NANOBOT_CHANNELS__TELEGRAM__ALLOW_FROM" parseStrListS []
      c.telegram.allow_from ∧
    FieldFrom env "NANOBOT_CHANNELS__TELEGRAM__PROXY" parseOptStr none
      c.telegram.proxy ∧
    FieldFrom env "NANOBOT_CHANNELS__FEISHU__ENABLED" parseBoolS false
      c.feishu.enabled ∧
    FieldFrom env "NANOBOT_CHANNELS__FEISHU__APP_ID" some "" c.feishu.app_id ∧
    FieldFrom env "NANOBOT_CHANNELS__FEISHU__APP_SECRET" some "" c.feishu.app_secret ∧
    FieldFrom env "NANOBOT_CHANNELS__FEISHU__ENCRYPT_KEY" some "" c.feishu.encrypt_key ∧
    FieldFrom env "NANOBOT_CHANNELS__FEISHU__VERIFICATION_TOKEN" some ""
      c.feishu.verification_token ∧
    FieldFrom env "NANOBOT_CHANNELS__FEISHU__ALLOW_FROM" parseStrListS []
      c.feishu.allow_from := by
  unfold ChannelsConfig.fromEnv at h
  obtain ⟨w, hw, h⟩ := exceptBindOk h
  obtain ⟨t, ht, h⟩ := exceptBindOk h
  obtain ⟨f, hf, h⟩ := exceptBindOk h
  have h2 : (Except.ok { whatsapp := w, telegram := t, feishu := f } :
      Except String ChannelsConfig) = .ok c := h
  injection h2 with h3
  rw [← h3]
  obtain ⟨w1, w2, w3⟩ := whatsAppConfig_fromEnv_fields hw
  obtain ⟨t1, t2, t3, t4⟩ := telegramConfig_fromEnv_fields ht
  obtain ⟨f1, f2, f3, f4, f5, f6⟩ := feishuConfig_fromEnv_fields hf
  exact ⟨w1, w2, w3, t1, t2, t3, t4, f1, f2, f3, f4, f5, f6⟩

/-- Round-trip leaves of the agent defaults. -/
theorem agentDefaults_fromEnv_fields {env : List (String × String)} {d : AgentDefaults}
    (h : AgentDefaults.fromEnv env = .ok d) :
    FieldFrom env "NANOBOT_AGENTS__DEFAULTS__WORKSPACE" some "~/.nanobot/workspace"
      d.workspace ∧
    FieldFrom env "NANOBOT_AGENTS__DEFAULTS__MODEL" some "gpt-4o" d.model ∧
    FieldFrom env "NANOBOT_AGENTS__DEFAULTS__MAX_TOKENS" parseIntS 8192 d.max_tokens ∧
    FieldFrom env "NANOBOT_AGENTS__DEFAULTS__TEMPERATURE" parseRatS 0.7 d.temperature ∧
    FieldFrom env "NANOBOT_AGENTS__DEFAULTS__MAX_TOOL_ITERATIONS" parseIntS 20
      d.max_tool_iterations := by
  unfold AgentDefaults.fromEnv at h
  obtain ⟨w, hw, h⟩ := exceptBindOk h
  obtain ⟨mo, hmo, h⟩ := exceptBindOk h
  obtain ⟨mt, hmt, h⟩ := exceptBindOk h
  obtain ⟨tp, htp, h⟩ := exceptBindOk h
  obtain ⟨mi, hmi, h⟩ := exceptBindOk h
  have h2 : (Except.ok { workspace := w, model := mo, max_tokens := mt,
                         temperature := tp, max_tool_iterations := mi } :
      Except String AgentDefaults) = .ok d := h
  injection h2 with h3
  rw [← h3]
  exact ⟨coerceField_ok hw, coerceField_ok hmo, coerceField_ok hmt,
         coerceField_ok htp, coerceField_ok hmi⟩

/-- Round-trip leaves of the agents section. -/
theorem agentsConfig_fromEnv_fields {env : List (String × String)} {a : AgentsConfig}
    (h : AgentsConfig.fromEnv env = .ok a) :
    FieldFrom env "NANOBOT_AGENTS__DEFAULTS__WORKSPACE" some "~/.nanobot/workspace"
      a.defaults.workspace ∧
    FieldFrom env "NANOBOT_AGENTS__DEFAULTS__MODEL" some "gpt-4o" a.defaults.model ∧
    FieldFrom env "NANOBOT_AGENTS__DEFAULTS__MAX_TOKENS" parseIntS 8192
      a.defaults.max_tokens ∧
    FieldFrom env "NANOBOT_AGENTS__DEFAULTS__TEMPERATURE" parseRatS 0.7
      a.defaults.temperature ∧
    FieldFrom env "NANOBOT_AGENTS__DEFAULTS__MAX_TOOL_ITERATIONS" parseIntS 20
      a.defaults.max_tool_iterations := by
  unfold AgentsConfig.fromEnv at h
  obtain ⟨d, hd, h⟩ := exceptBindOk h
  have h2 : (Except.ok { defaults := d } : Except String AgentsConfig) = .ok a := h
  injection h2 with h3
  rw [← h3]
  exact agentDefaults_fromEnv_fields hd

/-- Round-trip leaves of the openai group. -/
theorem openAIConfig_fromEnv_fields {env : List (String × String)} {o : OpenAIConfig}
    (h : OpenAIConfig.fromEnv env = .ok o) :
    FieldFrom env "NANOBOT_OPENAI__API_KEY" some "" o.api_key ∧
    FieldFrom env "NANOBOT_OPENAI__API_BASE" parseOptStr none o.api_base := by
  unfold OpenAIConfig.fromEnv at h
  obtain ⟨k, hk, h⟩ := exceptBindOk h
  obtain ⟨b, hb, h⟩ := exceptBindOk h
  have h2 : (Except.ok { api_key := k, api_base := b } :
      Except String OpenAIConfig) = .ok o := h
  injection h2 with h3
  rw [← h3]
  exact ⟨coerceField_ok hk, coerceField_ok hb⟩

/-- Round-trip leaves of the anthropic group. -/
theorem anthropicConfig_fromEnv_fields {env : List (String × String)} {o : AnthropicConfig}
    (h : AnthropicConfig.fromEnv env = .ok o) :
    FieldFrom env "NANOBOT_ANTHROPIC__API_KEY" some "" o.api_key ∧
    FieldFrom env "NANOBOT_ANTHROPIC__API_BASE" parseOptStr none o.api_base := by
  unfold AnthropicConfig.fromEnv at h
  obtain ⟨k, hk, h⟩ := exceptBindOk h
  obtain ⟨b, hb, h⟩ := exceptBindOk h
  have h2 : (Except.ok { api_key := k, api_base := b } :
      Except String AnthropicConfig) = .ok o := h
  injection h2 with h3
  rw [← h3]
  exact ⟨coerceField_ok hk, coerceField_ok hb⟩

/-- Round-trip leaves of the gemini group. -/
theorem geminiConfig_fromEnv_fields {env : List (String × String)} {o : GeminiConfig}
    (h : GeminiConfig.fromEnv env = .ok o) :
    FieldFrom env "NANOBOT_GEMINI__API_KEY" some "" o.api_key ∧
    FieldFrom env "NANOBOT_GEMINI__API_BASE" parseOptStr none o.api_base := by
  unfold GeminiConfig.fromEnv at h
  obtain ⟨k, hk, h⟩ := exceptBindOk h
  obtain ⟨b, hb, h⟩ := exceptBindOk h
  have h2 : (Except.ok { api_key := k, api_base := b } :
      Except String GeminiConfig) = .ok o := h
  injection h2 with h3
  rw [← h3]
  exact ⟨coerceField_ok hk, coerceField_ok hb⟩

/-- Round-trip leaves of the gateway group. -/
theorem gatewayConfig_fromEnv_fields {env : List (String × String)} {g : GatewayConfig}
    (h : GatewayConfig.fromEnv env = .ok g) :
    FieldFrom env "NANOBOT_GATEWAY__HOST" some "0.0.0.0" g.host ∧
    FieldFrom env "NANOBOT_GATEWAY__PORT" parseIntS 18790 g.port := by
  unfold GatewayConfig.fromEnv at h
  obtain ⟨ho, hho, h⟩ := exceptBindOk h
  obtain ⟨po, hpo, h⟩ := exceptBindOk h
  have h2 : (Except.ok { host := ho, port := po } :
      Except String GatewayConfig) = .ok g := h
  injection h2 with h3
  rw [← h3]
  exact ⟨coerceField_ok hho, coerceField_ok hpo⟩

/-- Round-trip leaves of the tools section. -/
theorem toolsConfig_fromEnv_fields {env : List (String × String)} {t : ToolsConfig}
    (h : ToolsConfig.fromEnv env = .ok t) :
    FieldFrom env "NANOBOT_TOOLS__WEB__SEARCH__API_KEY" some ""
      t.web.search.api_key ∧
    FieldFrom env "NANOBOT_TOOLS__WEB__SEARCH__MAX_RESULTS" parseIntS 5
      t.web.search.max_results ∧
    FieldFrom env "NANOBOT_TOOLS__EXEC__TIMEOUT" parseIntS 60 t.exec.timeout ∧
    FieldFrom env "NANOBOT_TOOLS__EXEC__RESTRICT_TO_WORKSPACE" parseBoolS false
      t.exec.restrict_to_workspace := by
  unfold ToolsConfig.fromEnv at h
  obtain ⟨w, hw, h⟩ := exceptBindOk h
  obtain ⟨e, he, h⟩ := exceptBindOk h
  have h2 : (Except.ok { web := w, exec := e } : Except String ToolsConfig) = .ok t := h
  injection h2 with h3
  rw [← h3]
  unfold WebToolsConfig.fromEnv at hw
  obtain ⟨sr, hsr, hw⟩ := exceptBindOk hw
  have hw2 : (Except.ok { search := sr } : Except String WebToolsConfig) = .ok w := hw
  injection hw2 with hw3
  rw [← hw3]
  unfold WebSearchConfig.fromEnv at hsr
  obtain ⟨k, hk, hsr⟩ := exceptBindOk hsr
  obtain ⟨mr, hmr, hsr⟩ := exceptBindOk hsr
  have hs2 : (Except.ok { api_key := k, max_results := mr } :
      Except String WebSearchConfig) = .ok sr := hsr
  injection hs2 with hs3
  rw [← hs3]
  unfold ExecToolConfig.fromEnv at he
  obtain ⟨ti, hti, he⟩ := exceptBindOk he
  obtain ⟨rw2, hrw, he⟩ := exceptBindOk he
  have he2 : (Except.ok { timeout := ti, restrict_to_workspace := rw2 } :
      Except String ExecToolConfig) = .ok e := he
  injection he2 with he3
  rw [← he3]
  exact ⟨coerceField_ok hk, coerceField_ok hmr, coerceField_ok hti, coerceField_ok hrw⟩

/-- C6: round-trip of configuration loading — constructing the
configuration from a set of NANOBOT_-prefixed, __-delimited environment
overrides and re-reading each field yields exactly the coerced
overridden values, and every field not overridden retains its declared
default value. -/
theorem config_fromEnv_roundtrip (env : List (String × String)) (cfg : Config)
    (h : Config.fromEnv env = .ok cfg) : RoundTrip env cfg := by
  unfold Config.fromEnv at h
  obtain ⟨ag, hag, h⟩ := exceptBindOk h
  obtain ⟨ch, hch, h⟩ := exceptBindOk h
  obtain ⟨oa, hoa, h⟩ := exceptBindOk h
  obtain ⟨an, han, h⟩ := exceptBindOk h
  obtain ⟨ge, hge, h⟩ := exceptBindOk h
  obtain ⟨gw, hgw, h⟩ := exceptBindOk h
  obtain ⟨tl, htl, h⟩ := exceptBindOk h
  have h2 : (Except.ok { agents := ag, channels := ch, openai := oa,
                         anthropic := an, gemini := ge, gateway := gw,
                         tools := tl } : Except String Config) = .ok cfg := h
  injection h2 with h3
  unfold RoundTrip
  rw [← h3]
  obtain ⟨a1, a2, a3, a4, a5⟩ := agentsConfig_fromEnv_fields hag
  obtain ⟨w1, w2, w3, t1, t2, t3, t4, f1, f2, f3, f4, f5, f6⟩ :=
    channelsConfig_fromEnv_fields hch
  obtain ⟨o1, o2⟩ := openAIConfig_fromEnv_fields hoa
  obtain ⟨n1, n2⟩ := anthropicConfig_fromEnv_fields han
  obtain ⟨g1, g2⟩ := geminiConfig_fromEnv_fields hge
  obtain ⟨gw1, gw2⟩ := gatewayConfig_fromEnv_fields hgw
  obtain ⟨s1, s2, e1, e2⟩ := toolsConfig_fromEnv_fields htl
  exact ⟨a1, a2, a3, a4, a5, w1, w2, w3, t1, t2, t3, t4, f1, f2, f3, f4, f5, f6,
         o1, o2, n1, n2, g1, g2, gw1, gw2, s1, s2, e1, e2⟩

/-- Witness for C6: a concrete override set (string, int, bool and
string-list values) constructs exactly the expected configuration and
satisfies the full round-trip property. -/
theorem config_fromEnv_roundtrip_witness :
    Config.fromEnv sampleEnv = .ok sampleCfg ∧ RoundTrip sampleEnv sampleCfg :=
  ⟨rfl, config_fromEnv_roundtrip sampleEnv sampleCfg rfl⟩

end Nanobot
